import Mathlib

/-!
Shallow embedding of the indicator/signal pipeline of the binance trading bot:
the pattern-gated indicator step (`app/cronjob/trailingTradeIndicator/step/get-indicators.js`)
and the fuller trailing-trade indicator step (appended in
`public/js/CoinWrapperBuySignal.js`).

Prices and quantities are modelled as rationals.  JavaScript partiality is made
explicit: `undefined` results of out-of-range array indexing are `Option.none`,
a JS `TypeError` crash (field access on `undefined`) makes the whole step return
`none`, and `NaN` produced by coercing a missing or non-numeric candle field is
`none` in the raw-candle model.
-/

/-- JavaScript array indexing `l[i]` with a possibly negative index:
`undefined` (`none`) when the index is negative or past the end. -/
def jsGet {α : Type} (l : List α) (i : Int) : Option α :=
  if 0 ≤ i then l.get? i.toNat else none

/-- JavaScript comparison `a < b` where `a` may be `undefined`:
`undefined < b` evaluates to `false`. -/
def jsLt (a : Option ℚ) (b : ℚ) : Bool :=
  match a with
  | some q => decide (q < b)
  | none => false

/-- JavaScript truthiness of `x > 0` where `x` may be `null`:
`null > 0` evaluates to `false`. -/
def jsNumGtZero : Option ℚ → Bool
  | some p => decide (0 < p)
  | none => false

/-- Model of JavaScript `String.prototype.toLowerCase` for the ASCII order
sides the reconciler compares: lower-cases every character. -/
def jsToLower (s : String) : String := ⟨s.data.map Char.toLower⟩

/-- Model of lodash `_.max` over a numeric array: `undefined` (`none`) on an
empty array, otherwise the maximum element. -/
def listMax : List ℚ → Option ℚ
  | [] => none
  | x :: xs =>
    match listMax xs with
    | none => some x
    | some m => some (max x m)

/-- Model of lodash `_.min` over a numeric array: `undefined` (`none`) on an
empty array, otherwise the minimum element. -/
def listMin : List ℚ → Option ℚ
  | [] => none
  | x :: xs =>
    match listMin xs with
    | none => some x
    | some m => some (min x m)

theorem listMax_mem : ∀ {l : List ℚ} {m : ℚ}, listMax l = some m → m ∈ l := by
  intro l
  induction l with
  | nil => intro m h; simp [listMax] at h
  | cons x xs ih =>
    intro m h
    simp only [listMax] at h
    cases hxs : listMax xs with
    | none => rw [hxs] at h; simp only [Option.some.injEq] at h; simp [h]
    | some m' =>
      rw [hxs] at h
      simp only [Option.some.injEq] at h
      rcases max_choice x m' with hc | hc
      · have hm : m = x := by rw [← h, hc]
        exact hm ▸ List.mem_cons_self x xs
      · have hm : m = m' := by rw [← h, hc]
        exact List.mem_cons_of_mem x (hm ▸ ih hxs)

theorem listMin_mem : ∀ {l : List ℚ} {m : ℚ}, listMin l = some m → m ∈ l := by
  intro l
  induction l with
  | nil => intro m h; simp [listMin] at h
  | cons x xs ih =>
    intro m h
    simp only [listMin] at h
    cases hxs : listMin xs with
    | none => rw [hxs] at h; simp only [Option.some.injEq] at h; simp [h]
    | some m' =>
      rw [hxs] at h
      simp only [Option.some.injEq] at h
      rcases min_choice x m' with hc | hc
      · have hm : m = x := by rw [← h, hc]
        exact hm ▸ List.mem_cons_self x xs
      · have hm : m = m' := by rw [← h, hc]
        exact List.mem_cons_of_mem x (hm ▸ ih hxs)

theorem jsGet_mem {α : Type} {l : List α} {i : Int} {a : α}
    (h : jsGet l i = some a) : a ∈ l := by
  unfold jsGet at h
  split at h
  · exact List.get?_mem h
  · exact absurd h (by simp)

/-- A candle as retrieved from the exchange, restricted to the fields the
pipeline reads, with all values already numeric. -/
structure Candle where
  openTime : ℚ
  openPrice : ℚ
  high : ℚ
  low : ℚ
  close : ℚ
  deriving Repr, DecidableEq

/-- Wilder-smoothed RSI over a series of closes (models the external
`technicalindicators` `RSI.calculate` routine per spec §4.2): the first average
gain/loss is the simple mean of the first `period` changes, subsequent averages
use Wilder smoothing, and `RSI = 100 - 100 / (1 + avgGain / avgLoss)` with
`RSI = 100` when the average loss is zero.  One output per input index ≥
`period`, hence `values.length - period` outputs. -/
def wilderRSI (period : Nat) (values : List ℚ) : List ℚ :=
  let ch := (values.zip values.tail).map (fun p => p.2 - p.1)
  if ch.length < period ∨ period = 0 then []
  else
    let initGain := ((ch.take period).map (fun c => max c 0)).sum / period
    let initLoss := ((ch.take period).map (fun c => max (-c) 0)).sum / period
    let pairs := (ch.drop period).scanl
      (fun (s : ℚ × ℚ) c =>
        ((s.1 * (period - 1 : Nat) + max c 0) / period,
         (s.2 * (period - 1 : Nat) + max (-c) 0) / period))
      (initGain, initLoss)
    pairs.map (fun s => if s.2 = 0 then 100 else 100 - 100 / (1 + s.1 / s.2))

theorem wilderRSI_length (values : List ℚ) (h : 15 ≤ values.length) :
    (wilderRSI 14 values).length = values.length - 14 := by
  unfold wilderRSI
  have hzip : (values.zip values.tail).length = values.length - 1 := by
    rw [List.length_zip, List.length_tail]
    omega
  have hch : ((values.zip values.tail).map (fun p => p.2 - p.1)).length
      = values.length - 1 := by rw [List.length_map, hzip]
  rw [if_neg]
  · simp only [List.length_map, List.length_scanl, List.length_drop, hch]
    omega
  · rw [hch]; omega

theorem wilderRSI_length_short (values : List ℚ) (h : values.length < 15) :
    (wilderRSI 14 values).length = 0 := by
  unfold wilderRSI
  have hch : ((values.zip values.tail).map (fun p => p.2 - p.1)).length
      = values.length - 1 := by
    rw [List.length_map, List.length_zip, List.length_tail]
    omega
  rw [if_pos]
  · rfl
  · left; omega

namespace GetIndicators

/-- Parallel numeric series produced by `flattenCandlesData` in the
pattern-gated step. -/
structure CandlesData where
  openTime : List ℚ
  high : List ℚ
  low : List ℚ
  close : List ℚ
  deriving Repr, DecidableEq

/-- Translation of `flattenCandlesData` from
`app/cronjob/trailingTradeIndicator/step/get-indicators.js` for candles whose
fields are already numeric: pushes each candle's fields onto four parallel
arrays. -/
def flattenCandlesData (candles : List Candle) : CandlesData :=
  { openTime := candles.map Candle.openTime
    high := candles.map Candle.high
    low := candles.map Candle.low
    close := candles.map Candle.close }

/-- JavaScript `Number.MIN_SAFE_INTEGER`, that is `-(2^53 - 1)`, the sentinel
the step writes as `lowestPrice` when the buy trigger is not met. -/
def minSafeInteger : ℚ := -9007199254740991

/-- Lines 62-79 of the pattern-gated step: the last closed (second-to-last)
candle must be green, the previous (third-to-last) candle red, and the
previous-last RSI below the configured threshold.  `none` models the JS
`TypeError` crash when the window has fewer than 3 candles. -/
def isMeetBuyTrigger (rsiConfig : ℚ) (candles : List Candle) : Option Bool := do
  let lastCandle ← jsGet candles ((candles.length : Int) - 2)
  let isLastCandleGreen := decide (lastCandle.openPrice < lastCandle.close)
  let previousLastCandle ← jsGet candles ((candles.length : Int) - 3)
  let isPreviousLastCandleRed :=
    decide (previousLastCandle.openPrice > previousLastCandle.close)
  let rsiValues := wilderRSI 14 (candles.map Candle.close)
  let previousLastCandleRSI := jsGet rsiValues ((rsiValues.length : Int) - 3)
  pure (isLastCandleGreen && isPreviousLastCandleRed
    && jsLt previousLastCandleRSI rsiConfig)

/-- The `data.indicators` record written by the pattern-gated step.  Fields
are optional because lodash `_.max` and out-of-range RSI indexing yield
`undefined`. -/
structure Result where
  highestPrice : Option ℚ
  lowestPrice : Option ℚ
  rsi : Option ℚ
  deriving Repr, DecidableEq

/-- Lines 81-94 of the pattern-gated step, given the already computed value of
`isMeetBuyTrigger`: the current RSI is the last RSI value, `lowestPrice` is the
second-to-last close when the trigger is met and `Number.MIN_SAFE_INTEGER`
otherwise, and `highestPrice` is lodash `_.max` of the high series. -/
def executeWith (candles : List Candle) (isMeet : Bool) : Result :=
  let candlesData := flattenCandlesData candles
  let rsiValues := wilderRSI 14 candlesData.close
  let currentRsi := jsGet rsiValues ((rsiValues.length : Int) - 1)
  let lowestPrice :=
    if isMeet then jsGet candlesData.close ((candlesData.close.length : Int) - 2)
    else some minSafeInteger
  let highestPrice := listMax candlesData.high
  { highestPrice := highestPrice, lowestPrice := lowestPrice, rsi := currentRsi }

/-- Translation of `execute` from
`app/cronjob/trailingTradeIndicator/step/get-indicators.js` (network retrieval
stripped; the candle window and configured RSI threshold are parameters):
evaluates the buy-trigger pattern and writes the indicator record. -/
def execute (rsiConfig : ℚ) (candles : List Candle) : Option Result := do
  let isMeet ← isMeetBuyTrigger rsiConfig candles
  pure (executeWith candles isMeet)

end GetIndicators

/-- A raw exchange candle record before numeric coercion: each field is
`some q` when present and numeric, `none` when missing or non-numeric (in
which case the JS unary `+` coercion used by `flattenCandlesData` yields
`NaN`, modelled as `none` in the output series). -/
structure RawCandle where
  openTime : Option ℚ
  openPrice : Option ℚ
  high : Option ℚ
  low : Option ℚ
  close : Option ℚ
  deriving Repr, DecidableEq

/-- Parallel series produced by `flattenCandlesData` on raw candles; `none`
entries are the `NaN` values produced by coercing a missing or non-numeric
field. -/
structure RawCandlesData where
  openTime : List (Option ℚ)
  high : List (Option ℚ)
  low : List (Option ℚ)
  close : List (Option ℚ)
  deriving Repr, DecidableEq

/-- Translation of `flattenCandlesData`
(`app/cronjob/trailingTradeIndicator/step/get-indicators.js` lines 10-29) at
the raw-candle level: it pushes `+candle.field` for every candle without any
validation and never throws, so a missing or non-numeric field becomes `NaN`
(`none`) in the output. -/
def flattenRawCandlesData (candles : List RawCandle) : RawCandlesData :=
  { openTime := candles.map RawCandle.openTime
    high := candles.map RawCandle.high
    low := candles.map RawCandle.low
    close := candles.map RawCandle.close }

namespace TrailingTrade

/-- An open order as reported by the exchange, restricted to the fields the
reconciler reads. -/
structure RawOrder where
  side : String
  type : String
  time : ℚ
  price : ℚ
  origQty : ℚ
  stopPrice : ℚ
  deriving Repr, DecidableEq

/-- An open order after the reconciler ran over it.  A field of type
`Option _` is `none` when the reconciler left it absent; for
`minimumProfit` / `minimumProfitPercentage` the inner `Option` distinguishes
an explicit JS `null` (`some none`) from a number (`some (some q)`). -/
structure EnrichedOrder where
  side : String
  type : String
  time : ℚ
  price : ℚ
  origQty : ℚ
  stopPrice : ℚ
  currentPrice : Option ℚ
  updatedAt : Option ℚ
  limitPrice : Option ℚ
  limitPercentage : Option ℚ
  difference : Option ℚ
  minimumProfit : Option (Option ℚ)
  minimumProfitPercentage : Option (Option ℚ)
  deriving Repr, DecidableEq

/-- An account balance entry. -/
structure Balance where
  asset : String
  free : ℚ
  locked : ℚ
  deriving Repr, DecidableEq

/-- Line 284 of the trailing step: `buyTriggerPrice = lowestPrice *
buyTriggerPercentage`. -/
def buyTriggerPriceOf (lowestPrice buyTriggerPercentage : ℚ) : ℚ :=
  lowestPrice * buyTriggerPercentage

/-- Line 285: `buyDifference = (1 - currentPrice / buyTriggerPrice) * -100`. -/
def buyDifferenceOf (currentPrice buyTriggerPrice : ℚ) : ℚ :=
  (1 - currentPrice / buyTriggerPrice) * (-100)

/-- Line 286: `buyLimitPrice = currentPrice * buyLimitPercentage`. -/
def buyLimitPriceOf (currentPrice buyLimitPercentage : ℚ) : ℚ :=
  currentPrice * buyLimitPercentage

/-- Lines 290-291: `sellTriggerPrice = lastBuyPrice > 0 ? lastBuyPrice *
sellTriggerPercentage : null`. -/
def sellTriggerPriceOf (lastBuyPrice : Option ℚ) (sellTriggerPercentage : ℚ) :
    Option ℚ :=
  if jsNumGtZero lastBuyPrice then
    some (lastBuyPrice.getD 0 * sellTriggerPercentage)
  else none

/-- Lines 292-293: `sellDifference = lastBuyPrice > 0 ? (1 - sellTriggerPrice /
currentPrice) * 100 : null`. -/
def sellDifferenceOf (lastBuyPrice : Option ℚ) (sellTriggerPrice : Option ℚ)
    (currentPrice : ℚ) : Option ℚ :=
  if jsNumGtZero lastBuyPrice then
    some ((1 - sellTriggerPrice.getD 0 / currentPrice) * 100)
  else none

/-- Line 294: `sellLimitPrice = currentPrice * sellLimitPercentage`. -/
def sellLimitPriceOf (currentPrice sellLimitPercentage : ℚ) : ℚ :=
  currentPrice * sellLimitPercentage

/-- Lines 322-354 of the trailing step, the order reconciler body for one
order: always attach `currentPrice` and `updatedAt`; for stop-loss-limit
orders additionally attach limit price/percentage and difference per side,
and on the sell side `minimumProfit` / `minimumProfitPercentage` (explicit
`null` unless `lastBuyPrice > 0`). -/
def reconcileOrder (currentPrice buyLimitPrice buyLimitPercentage
    sellLimitPrice sellLimitPercentage : ℚ) (lastBuyPrice : Option ℚ)
    (order : RawOrder) : EnrichedOrder :=
  let newOrder : EnrichedOrder :=
    { side := order.side, type := order.type, time := order.time,
      price := order.price, origQty := order.origQty,
      stopPrice := order.stopPrice,
      currentPrice := some currentPrice, updatedAt := some order.time,
      limitPrice := none, limitPercentage := none, difference := none,
      minimumProfit := none, minimumProfitPercentage := none }
  if order.type ≠ "STOP_LOSS_LIMIT" then newOrder
  else
    let afterBuy :=
      if jsToLower order.side = "buy" then
        { newOrder with
          limitPrice := some buyLimitPrice,
          limitPercentage := some buyLimitPercentage,
          difference := some ((1 - order.stopPrice / buyLimitPrice) * (-100)) }
      else newOrder
    if jsToLower order.side = "sell" then
      let withNull :=
        { afterBuy with
          limitPrice := some sellLimitPrice,
          limitPercentage := some sellLimitPercentage,
          difference := some ((1 - order.stopPrice / sellLimitPrice) * 100),
          minimumProfit := some none, minimumProfitPercentage := some none }
      if jsNumGtZero lastBuyPrice then
        { withNull with
          minimumProfit :=
            some (some ((order.price - lastBuyPrice.getD 0) * order.origQty)),
          minimumProfitPercentage :=
            some (some ((1 - lastBuyPrice.getD 0 / order.price) * 100)) }
      else withNull
    else afterBuy

/-- The `data.buy` section written at lines 371-380.  The source literal's
keys are recorded separately in `buyFieldNames`; note the source spells the
process-message key `processMesage`. -/
structure BuyRecord where
  currentPrice : ℚ
  limitPrice : ℚ
  lowestPrice : ℚ
  triggerPrice : ℚ
  difference : ℚ
  openOrders : List EnrichedOrder
  processMesage : String
  updatedAt : ℚ
  deriving Repr, DecidableEq

/-- The `data.sell` section written at lines 382-393.  `Option ℚ` fields hold
`none` for an explicit JS `null`. -/
structure SellRecord where
  currentPrice : ℚ
  limitPrice : ℚ
  lastBuyPrice : Option ℚ
  triggerPrice : Option ℚ
  difference : Option ℚ
  currentProfit : Option ℚ
  currentProfitPercentage : Option ℚ
  openOrders : List EnrichedOrder
  processMessage : String
  updatedAt : ℚ
  deriving Repr, DecidableEq

/-- The object keys of the `data.buy` literal (lines 371-380), in source
order. -/
def buyFieldNames : List String :=
  ["currentPrice", "limitPrice", "lowestPrice", "triggerPrice", "difference",
   "openOrders", "processMesage", "updatedAt"]

/-- The object keys of the `data.sell` literal (lines 382-393), in source
order. -/
def sellFieldNames : List String :=
  ["currentPrice", "limitPrice", "lastBuyPrice", "triggerPrice", "difference",
   "currentProfit", "currentProfitPercentage", "openOrders", "processMessage",
   "updatedAt"]

/-- Input of the trailing step with the network/cache/database retrievals
replaced by parameters: the candle window, the per-symbol configuration
percentages, the persisted last buy price (`none` for JS `null`), the account
balances and the open orders.  `now` stands for the wall-clock timestamp
`moment().utc()`. -/
structure Input where
  baseAsset : String
  quoteAsset : String
  buyTriggerPercentage : ℚ
  buyLimitPercentage : ℚ
  sellTriggerPercentage : ℚ
  sellLimitPercentage : ℚ
  candles : List Candle
  lastBuyPrice : Option ℚ
  balances : List Balance
  openOrders : List RawOrder
  now : ℚ
  deriving Repr, DecidableEq

/-- The fields the trailing step writes into the trade state. -/
structure Result where
  lowestPrice : ℚ
  lastCandle : Candle
  baseAssetBalance : Balance
  baseAssetTotalBalance : ℚ
  baseAssetEstimatedValue : ℚ
  quoteAssetBalance : Balance
  buy : BuyRecord
  sell : SellRecord
  deriving Repr, DecidableEq

/-- Lines 282-393 of the trailing-trade indicator step, given the last candle
and the rolling lowest price: derives the trigger/limit/difference prices, the
balances, the profit figures, reconciles the open orders and writes the `buy`
and `sell` sections. -/
def executeWith (inp : Input) (lastCandle : Candle) (lowestPrice : ℚ) : Result :=
  let currentPrice := lastCandle.close
  let buyTriggerPrice := buyTriggerPriceOf lowestPrice inp.buyTriggerPercentage
  let buyDifference := buyDifferenceOf currentPrice buyTriggerPrice
  let buyLimitPrice := buyLimitPriceOf currentPrice inp.buyLimitPercentage
  let lastBuyPrice := inp.lastBuyPrice
  let sellTriggerPrice := sellTriggerPriceOf lastBuyPrice inp.sellTriggerPercentage
  let sellDifference := sellDifferenceOf lastBuyPrice sellTriggerPrice currentPrice
  let sellLimitPrice := sellLimitPriceOf currentPrice inp.sellLimitPercentage
  let baseAssetBalance :=
    ((inp.balances.filter (fun b => b.asset == inp.baseAsset)).head?).getD
      ⟨inp.baseAsset, 0, 0⟩
  let quoteAssetBalance :=
    ((inp.balances.filter (fun b => b.asset == inp.quoteAsset)).head?).getD
      ⟨inp.quoteAsset, 0, 0⟩
  let baseAssetTotalBalance := baseAssetBalance.free + baseAssetBalance.locked
  let baseAssetEstimatedValue := baseAssetTotalBalance * currentPrice
  let sellCurrentProfit :=
    if jsNumGtZero lastBuyPrice then
      some ((currentPrice - lastBuyPrice.getD 0) * baseAssetTotalBalance)
    else none
  let sellCurrentProfitPercentage :=
    if jsNumGtZero lastBuyPrice then
      some ((1 - lastBuyPrice.getD 0 / currentPrice) * 100)
    else none
  let newOpenOrders := inp.openOrders.map
    (reconcileOrder currentPrice buyLimitPrice inp.buyLimitPercentage
      sellLimitPrice inp.sellLimitPercentage lastBuyPrice)
  { lowestPrice := lowestPrice
    lastCandle := lastCandle
    baseAssetBalance := baseAssetBalance
    baseAssetTotalBalance := baseAssetTotalBalance
    baseAssetEstimatedValue := baseAssetEstimatedValue
    quoteAssetBalance := quoteAssetBalance
    buy :=
      { currentPrice := currentPrice
        limitPrice := buyLimitPrice
        lowestPrice := lowestPrice
        triggerPrice := buyTriggerPrice
        difference := buyDifference
        openOrders := newOpenOrders.filter (fun o => jsToLower o.side == "buy")
        processMesage := ""
        updatedAt := inp.now }
    sell :=
      { currentPrice := currentPrice
        limitPrice := sellLimitPrice
        lastBuyPrice := lastBuyPrice
        triggerPrice := sellTriggerPrice
        difference := sellDifference
        currentProfit := sellCurrentProfit
        currentProfitPercentage := sellCurrentProfitPercentage
        openOrders := newOpenOrders.filter (fun o => jsToLower o.side == "sell")
        processMessage := ""
        updatedAt := inp.now } }

/-- Translation of `execute` from the trailing-trade indicator step (the
second part of `public/js/CoinWrapperBuySignal.js`, lines 238-396), with
retrievals stripped to parameters.  `none` models the JS `TypeError` crash of
`lastCandle.close` on an empty candle window (in which case lodash `_.min`
also yields `undefined`). -/
def execute (inp : Input) : Option Result := do
  let lastCandle ← jsGet inp.candles ((inp.candles.length : Int) - 1)
  let lowestPrice ← listMin (inp.candles.map Candle.low)
  pure (executeWith inp lastCandle lowestPrice)

end TrailingTrade

theorem jsGet_bounds {α : Type} {l : List α} {i : Int} {a : α}
    (h : jsGet l i = some a) : 0 ≤ i ∧ i.toNat < l.length := by
  unfold jsGet at h
  split at h
  · next hi =>
    refine ⟨hi, ?_⟩
    by_contra hlen
    rw [List.get?_eq_none.mpr (by omega)] at h
    exact Option.noConfusion h
  · exact Option.noConfusion h

theorem jsGet_eq_get? {α : Type} (l : List α) (i : Int) (hi : 0 ≤ i) :
    jsGet l i = l.get? i.toNat := if_pos hi

theorem jsGet_nat_sub {α : Type} (l : List α) (k : Nat) (hk : k ≤ l.length) :
    jsGet l ((l.length : Int) - k) = l.get? (l.length - k) := by
  rw [jsGet_eq_get? l _ (by omega)]
  congr 1
  omega

namespace GetIndicators

theorem isMeetBuyTrigger_some_length {rsiConfig : ℚ} {candles : List Candle}
    {b : Bool} (h : isMeetBuyTrigger rsiConfig candles = some b) :
    3 ≤ candles.length := by
  unfold isMeetBuyTrigger at h
  simp only [Option.bind_eq_bind, Option.bind_eq_some, Option.pure_def,
    Option.some.injEq] at h
  obtain ⟨c2, hc2, c3, hc3, _⟩ := h
  have hb := jsGet_bounds hc3
  omega

theorem isMeetBuyTrigger_spec (rsiConfig : ℚ) (candles : List Candle)
    (h : 3 ≤ candles.length) :
    ∃ c2 c3,
      candles.get? (candles.length - 2) = some c2 ∧
      candles.get? (candles.length - 3) = some c3 ∧
      isMeetBuyTrigger rsiConfig candles =
        some (decide (c2.openPrice < c2.close)
          && decide (c3.openPrice > c3.close)
          && jsLt (jsGet (wilderRSI 14 (candles.map Candle.close))
              (((wilderRSI 14 (candles.map Candle.close)).length : Int) - 3))
              rsiConfig) := by
  have h2 : candles.length - 2 < candles.length := by omega
  have h3 : candles.length - 3 < candles.length := by omega
  have hc2 := List.get?_eq_get h2
  have hc3 := List.get?_eq_get h3
  refine ⟨candles.get ⟨candles.length - 2, h2⟩,
    candles.get ⟨candles.length - 3, h3⟩, hc2, hc3, ?_⟩
  unfold isMeetBuyTrigger
  rw [jsGet_eq_get? candles ((candles.length : Int) - 2) (by omega),
    jsGet_eq_get? candles ((candles.length : Int) - 3) (by omega),
    show (((candles.length : Int) - 2).toNat) = candles.length - 2 by omega,
    show (((candles.length : Int) - 3).toNat) = candles.length - 3 by omega,
    hc2, hc3]
  rfl

theorem indicators_execute_eq_some {rsiConfig : ℚ} {candles : List Candle}
    {res : Result} (h : execute rsiConfig candles = some res) :
    ∃ b, isMeetBuyTrigger rsiConfig candles = some b ∧
      res = executeWith candles b := by
  unfold execute at h
  simp only [Option.bind_eq_bind, Option.bind_eq_some, Option.pure_def,
    Option.some.injEq] at h
  obtain ⟨b, hb, hres⟩ := h
  exact ⟨b, hb, hres.symm⟩

end GetIndicators

namespace TrailingTrade

theorem trailing_execute_eq_some {inp : Input} {res : Result}
    (h : execute inp = some res) :
    ∃ lastCandle lowestPrice,
      jsGet inp.candles ((inp.candles.length : Int) - 1) = some lastCandle ∧
      listMin (inp.candles.map Candle.low) = some lowestPrice ∧
      res = executeWith inp lastCandle lowestPrice := by
  unfold execute at h
  simp only [Option.bind_eq_bind, Option.bind_eq_some, Option.pure_def,
    Option.some.injEq] at h
  obtain ⟨lc, hlc, lp, hlp, hres⟩ := h
  exact ⟨lc, lp, hlc, hlp, hres.symm⟩

theorem reconcileOrder_side (currentPrice buyLimitPrice buyLimitPercentage
    sellLimitPrice sellLimitPercentage : ℚ) (lastBuyPrice : Option ℚ)
    (order : RawOrder) :
    (reconcileOrder currentPrice buyLimitPrice buyLimitPercentage
      sellLimitPrice sellLimitPercentage lastBuyPrice order).side = order.side
    ∧ (reconcileOrder currentPrice buyLimitPrice buyLimitPercentage
      sellLimitPrice sellLimitPercentage lastBuyPrice order).type = order.type
    := by
  unfold reconcileOrder
  split
  · exact ⟨rfl, rfl⟩
  · split <;> split <;> first
      | exact ⟨rfl, rfl⟩
      | (split <;> exact ⟨rfl, rfl⟩)

theorem reconcileOrder_sell_eq (currentPrice buyLimitPrice buyLimitPercentage
    sellLimitPrice sellLimitPercentage : ℚ) (lastBuyPrice : Option ℚ)
    (order : RawOrder) (htype : order.type = "STOP_LOSS_LIMIT")
    (hside : jsToLower order.side = "sell") :
    reconcileOrder currentPrice buyLimitPrice buyLimitPercentage
      sellLimitPrice sellLimitPercentage lastBuyPrice order =
    { side := order.side, type := order.type, time := order.time,
      price := order.price, origQty := order.origQty,
      stopPrice := order.stopPrice,
      currentPrice := some currentPrice, updatedAt := some order.time,
      limitPrice := some sellLimitPrice,
      limitPercentage := some sellLimitPercentage,
      difference := some ((1 - order.stopPrice / sellLimitPrice) * 100),
      minimumProfit :=
        if jsNumGtZero lastBuyPrice then
          some (some ((order.price - lastBuyPrice.getD 0) * order.origQty))
        else some none,
      minimumProfitPercentage :=
        if jsNumGtZero lastBuyPrice then
          some (some ((1 - lastBuyPrice.getD 0 / order.price) * 100))
        else some none } := by
  have hnb : ¬ jsToLower order.side = "buy" := by simp [hside]
  unfold reconcileOrder
  rw [if_neg (show ¬ order.type ≠ "STOP_LOSS_LIMIT" by simp [htype]),
    if_neg hnb, if_pos hside]
  cases hjz : jsNumGtZero lastBuyPrice <;> simp [hjz]

end TrailingTrade

/-- A flat window of three identical candles (all prices 1): the second-to-last
candle is not green, so the buy trigger is not met. -/
def wA : List Candle := List.replicate 3 ⟨0, 1, 1, 1, 1⟩

/-- A flat window of ten identical candles: too short for the RSI values the
pattern detector reads. -/
def w10 : List Candle := List.replicate 10 ⟨0, 1, 1, 1, 1⟩

/-- A flat window of seventeen identical candles: the shortest window for which
the previous-last RSI value exists. -/
def w17 : List Candle := List.replicate 17 ⟨0, 1, 1, 1, 1⟩

/-- C1: in the pattern-gated indicator step, whenever the step completes, if
`meetsBuyTrigger` is true the written `lowestPrice` is the close of the
second-to-last candle, and if it is false the written `lowestPrice` is the
`Number.MIN_SAFE_INTEGER` sentinel, whose derived buy trigger price (sentinel
times any positive trigger percentage) is strictly below every non-negative
current price, so the buy trigger can never be reached. -/
theorem c1_lowestPrice_gating (rsiConfig : ℚ) (candles : List Candle)
    (res : GetIndicators.Result)
    (h : GetIndicators.execute rsiConfig candles = some res) :
    (GetIndicators.isMeetBuyTrigger rsiConfig candles = some true →
      ∃ c2, candles.get? (candles.length - 2) = some c2 ∧
        res.lowestPrice = some c2.close) ∧
    (GetIndicators.isMeetBuyTrigger rsiConfig candles = some false →
      res.lowestPrice = some GetIndicators.minSafeInteger ∧
      ∀ pct currentPrice : ℚ, 0 < pct → 0 ≤ currentPrice →
        GetIndicators.minSafeInteger * pct < currentPrice) := by
  obtain ⟨b, hb, hres⟩ := GetIndicators.indicators_execute_eq_some h
  subst hres
  constructor
  · intro htrue
    rw [hb, Option.some.injEq] at htrue
    subst htrue
    have hlen := GetIndicators.isMeetBuyTrigger_some_length hb
    have h2 : candles.length - 2 < candles.length := by omega
    refine ⟨candles.get ⟨candles.length - 2, h2⟩, List.get?_eq_get h2, ?_⟩
    show (if true then jsGet (candles.map Candle.close)
        (((candles.map Candle.close).length : Int) - 2)
      else some GetIndicators.minSafeInteger) = _
    rw [if_pos rfl,
      jsGet_eq_get? _ _ (by rw [List.length_map]; omega),
      show (((candles.map Candle.close).length : Int) - 2).toNat
          = candles.length - 2 by rw [List.length_map]; omega,
      List.get?_map, List.get?_eq_get h2, Option.map_some']
  · intro hfalse
    rw [hb, Option.some.injEq] at hfalse
    subst hfalse
    refine ⟨rfl, ?_⟩
    intro pct currentPrice hpct hcp
    have hneg : GetIndicators.minSafeInteger < 0 := by
      norm_num [GetIndicators.minSafeInteger]
    have := mul_neg_of_neg_of_pos hneg hpct
    linarith

/-- C1 witness: on the flat three-candle window the step completes, the
trigger is not met and the sentinel is written. -/
theorem c1_lowestPrice_gating_witness :
    GetIndicators.execute 30 wA = some (GetIndicators.executeWith wA false) ∧
    ((GetIndicators.isMeetBuyTrigger 30 wA = some true →
      ∃ c2, wA.get? (wA.length - 2) = some c2 ∧
        (GetIndicators.executeWith wA false).lowestPrice = some c2.close) ∧
    (GetIndicators.isMeetBuyTrigger 30 wA = some false →
      (GetIndicators.executeWith wA false).lowestPrice
          = some GetIndicators.minSafeInteger ∧
      ∀ pct currentPrice : ℚ, 0 < pct → 0 ≤ currentPrice →
        GetIndicators.minSafeInteger * pct < currentPrice)) :=
  ⟨by decide,
   c1_lowestPrice_gating 30 wA (GetIndicators.executeWith wA false) (by decide)⟩

/-- C2: for windows of at least `period + 3 = 17` candles, `meetsBuyTrigger`
is true exactly when the second-to-last candle is green, the third-to-last
candle is red, and the RSI value at index `length - 3` of the Wilder RSI
series over the closes is strictly below the configured threshold; it is false
exactly when at least one of the three conditions fails. -/
theorem c2_meetsBuyTrigger_iff (rsiConfig : ℚ) (candles : List Candle)
    (h : 17 ≤ candles.length) :
    ∃ c2 c3 v,
      candles.get? (candles.length - 2) = some c2 ∧
      candles.get? (candles.length - 3) = some c3 ∧
      (wilderRSI 14 (candles.map Candle.close)).get?
        ((wilderRSI 14 (candles.map Candle.close)).length - 3) = some v ∧
      (GetIndicators.isMeetBuyTrigger rsiConfig candles = some true ↔
        (c2.openPrice < c2.close ∧ c3.openPrice > c3.close ∧ v < rsiConfig)) ∧
      (GetIndicators.isMeetBuyTrigger rsiConfig candles = some false ↔
        ¬ (c2.openPrice < c2.close ∧ c3.openPrice > c3.close ∧ v < rsiConfig)) := by
  obtain ⟨c2, c3, hc2, hc3, hm⟩ :=
    GetIndicators.isMeetBuyTrigger_spec rsiConfig candles (by omega)
  have hrlen : (wilderRSI 14 (candles.map Candle.close)).length
      = candles.length - 14 := by
    rw [wilderRSI_length (candles.map Candle.close)
      (by rw [List.length_map]; omega), List.length_map]
  have hi : (wilderRSI 14 (candles.map Candle.close)).length - 3
      < (wilderRSI 14 (candles.map Candle.close)).length := by omega
  have hv := List.get?_eq_get hi
  refine ⟨c2, c3, _, hc2, hc3, hv, ?_, ?_⟩
  · rw [hm]
    have hjs : jsGet (wilderRSI 14 (candles.map Candle.close))
        (((wilderRSI 14 (candles.map Candle.close)).length : Int) - 3)
        = some ((wilderRSI 14 (candles.map Candle.close)).get
            ⟨(wilderRSI 14 (candles.map Candle.close)).length - 3, hi⟩) := by
      rw [jsGet_eq_get? _ _ (by omega),
        show (((wilderRSI 14 (candles.map Candle.close)).length : Int) - 3).toNat
            = (wilderRSI 14 (candles.map Candle.close)).length - 3 by omega, hv]
    rw [hjs]
    simp [jsLt, and_assoc]
  · rw [hm]
    have hjs : jsGet (wilderRSI 14 (candles.map Candle.close))
        (((wilderRSI 14 (candles.map Candle.close)).length : Int) - 3)
        = some ((wilderRSI 14 (candles.map Candle.close)).get
            ⟨(wilderRSI 14 (candles.map Candle.close)).length - 3, hi⟩) := by
      rw [jsGet_eq_get? _ _ (by omega),
        show (((wilderRSI 14 (candles.map Candle.close)).length : Int) - 3).toNat
            = (wilderRSI 14 (candles.map Candle.close)).length - 3 by omega, hv]
    rw [hjs]
    simp [jsLt, and_assoc]

/-- C2 witness: the flat seventeen-candle window satisfies the length bound
and the characterisation applies to it. -/
theorem c2_meetsBuyTrigger_iff_witness :
    17 ≤ w17.length ∧
    (∃ c2 c3 v,
      w17.get? (w17.length - 2) = some c2 ∧
      w17.get? (w17.length - 3) = some c3 ∧
      (wilderRSI 14 (w17.map Candle.close)).get?
        ((wilderRSI 14 (w17.map Candle.close)).length - 3) = some v ∧
      (GetIndicators.isMeetBuyTrigger 30 w17 = some true ↔
        (c2.openPrice < c2.close ∧ c3.openPrice > c3.close ∧ v < 30)) ∧
      (GetIndicators.isMeetBuyTrigger 30 w17 = some false ↔
        ¬ (c2.openPrice < c2.close ∧ c3.openPrice > c3.close ∧ v < 30))) :=
  ⟨by decide, c2_meetsBuyTrigger_iff 30 w17 (by decide)⟩

/-- C7 counterexample: on a ten-candle window (fewer than `period + 3 = 17`
closes) the pattern-gated step does not fail at all — it returns an indicator
record (with the sentinel lowest price); no `InsufficientDataError` is ever
raised by the code. -/
theorem c7_counterexample :
    w10.length < 17 ∧
    GetIndicators.execute 30 w10 = some (GetIndicators.executeWith w10 false) := by
  decide

/-- C7 amended: for windows with at least 3 but fewer than `period + 3 = 17`
candles the step does not fail; the previous-last RSI lookup is `undefined`,
the RSI comparison is hence false, `meetsBuyTrigger` is false and the sentinel
lowest price is written — the window is treated as "no signal", and no
`InsufficientDataError` exists in the code. -/
theorem c7_short_window_no_signal (rsiConfig : ℚ) (candles : List Candle)
    (h3 : 3 ≤ candles.length) (h17 : candles.length < 17) :
    GetIndicators.isMeetBuyTrigger rsiConfig candles = some false ∧
    GetIndicators.execute rsiConfig candles =
      some (GetIndicators.executeWith candles false) := by
  obtain ⟨c2, c3, hc2, hc3, hm⟩ :=
    GetIndicators.isMeetBuyTrigger_spec rsiConfig candles h3
  have hrlen : (wilderRSI 14 (candles.map Candle.close)).length < 3 := by
    rcases lt_or_le (candles.map Candle.close).length 15 with hlt | hge
    · rw [wilderRSI_length_short _ hlt]; omega
    · rw [wilderRSI_length _ hge]
      rw [List.length_map] at hge ⊢
      omega
  have hneg : ¬ (0 : Int) ≤
      ((wilderRSI 14 (candles.map Candle.close)).length : Int) - 3 := by omega
  have hjs : jsGet (wilderRSI 14 (candles.map Candle.close))
      (((wilderRSI 14 (candles.map Candle.close)).length : Int) - 3) = none := by
    unfold jsGet; exact if_neg hneg
  have hfalse : GetIndicators.isMeetBuyTrigger rsiConfig candles = some false := by
    rw [hm, hjs]
    simp [jsLt]
  refine ⟨hfalse, ?_⟩
  unfold GetIndicators.execute
  rw [hfalse]
  rfl

/-- C7 witness: the flat ten-candle window has between 3 and 16 candles, the
trigger evaluates to false and the step completes with the sentinel record. -/
theorem c7_short_window_no_signal_witness :
    3 ≤ w10.length ∧ w10.length < 17 ∧
    (GetIndicators.isMeetBuyTrigger 30 w10 = some false ∧
     GetIndicators.execute 30 w10 = some (GetIndicators.executeWith w10 false)) :=
  ⟨by decide, by decide, c7_short_window_no_signal 30 w10 (by decide) (by decide)⟩

/-- C3 counterexample: a flat three-candle window with every price 1 (all
non-negative) on which the pattern-gated step completes and writes the
strictly negative `Number.MIN_SAFE_INTEGER` sentinel as `lowestPrice`,
refuting the claimed non-negativity invariant. -/
theorem c3_counterexample :
    wA = List.replicate 3 ⟨0, 1, 1, 1, 1⟩ ∧
    GetIndicators.execute 30 wA = some (GetIndicators.executeWith wA false) ∧
    (GetIndicators.executeWith wA false).lowestPrice
      = some GetIndicators.minSafeInteger ∧
    GetIndicators.minSafeInteger < 0 := by
  refine ⟨rfl, by decide, by decide, by decide⟩

/-- C3 amended: for inputs with non-negative candle prices, the pattern-gated
step's `highestPrice` is non-negative and its `lowestPrice` is non-negative
whenever the buy trigger is met (when the trigger is not met it is the
negative `Number.MIN_SAFE_INTEGER` sentinel), and the trailing step's
`lowestPrice` and `currentPrice` are non-negative. -/
theorem c3_nonneg_amended :
    (∀ (rsiConfig : ℚ) (candles : List Candle) (res : GetIndicators.Result),
      (∀ c ∈ candles, 0 ≤ c.high ∧ 0 ≤ c.close) →
      GetIndicators.execute rsiConfig candles = some res →
      (∀ hp, res.highestPrice = some hp → 0 ≤ hp) ∧
      (GetIndicators.isMeetBuyTrigger rsiConfig candles = some true →
        ∀ lp, res.lowestPrice = some lp → 0 ≤ lp) ∧
      (GetIndicators.isMeetBuyTrigger rsiConfig candles = some false →
        res.lowestPrice = some GetIndicators.minSafeInteger)) ∧
    (∀ (inp : TrailingTrade.Input) (res : TrailingTrade.Result),
      (∀ c ∈ inp.candles, 0 ≤ c.low ∧ 0 ≤ c.close) →
      TrailingTrade.execute inp = some res →
      0 ≤ res.buy.lowestPrice ∧ 0 ≤ res.buy.currentPrice) := by
  constructor
  · intro rsiConfig candles res hnn h
    obtain ⟨b, hb, hres⟩ := GetIndicators.indicators_execute_eq_some h
    subst hres
    refine ⟨?_, ?_, ?_⟩
    · intro hp hhp
      have hmem : hp ∈ candles.map Candle.high := by
        apply listMax_mem
        exact hhp
      obtain ⟨c, hc, hceq⟩ := List.mem_map.mp hmem
      rw [← hceq]
      exact (hnn c hc).1
    · intro htrue lp hlp
      rw [hb, Option.some.injEq] at htrue
      subst htrue
      have hmem : lp ∈ candles.map Candle.close := by
        apply jsGet_mem (i := ((candles.map Candle.close).length : Int) - 2)
        exact hlp
      obtain ⟨c, hc, hceq⟩ := List.mem_map.mp hmem
      rw [← hceq]
      exact (hnn c hc).2
    · intro hfalse
      rw [hb, Option.some.injEq] at hfalse
      subst hfalse
      rfl
  · intro inp res hnn h
    obtain ⟨lc, lp, hlc, hlp, hres⟩ := TrailingTrade.trailing_execute_eq_some h
    subst hres
    constructor
    · show 0 ≤ lp
      have hmem : lp ∈ inp.candles.map Candle.low := listMin_mem hlp
      obtain ⟨c, hc, hceq⟩ := List.mem_map.mp hmem
      rw [← hceq]
      exact (hnn c hc).1
    · show 0 ≤ lc.close
      exact (hnn lc (jsGet_mem hlc)).2

/-- A single-candle trailing-step input with no recorded last buy price, one
sell-side stop-loss-limit order and one order of an unknown side. -/
def inpN : TrailingTrade.Input :=
  { baseAsset := "BTC", quoteAsset := "USDT"
    buyTriggerPercentage := 101/100, buyLimitPercentage := 2
    sellTriggerPercentage := 3, sellLimitPercentage := 4
    candles := [⟨0, 1, 2, 1, 2⟩]
    lastBuyPrice := none
    balances := [⟨"BTC", 1, 0⟩]
    openOrders := [⟨"SELL", "STOP_LOSS_LIMIT", 5, 110, 2, 7⟩,
                   ⟨"HOLD", "STOP_LOSS_LIMIT", 6, 50, 1, 40⟩]
    now := 0 }

/-- The same trailing-step input with a recorded last buy price of 100. -/
def inpP : TrailingTrade.Input := { inpN with lastBuyPrice := some 100 }

/-- C3 witness: the amended non-negativity statement applied to the flat
three-candle window and to the concrete trailing-step input. -/
theorem c3_nonneg_amended_witness :
    ((∀ hp, (GetIndicators.executeWith wA false).highestPrice = some hp → 0 ≤ hp) ∧
     (GetIndicators.isMeetBuyTrigger 30 wA = some true →
       ∀ lp, (GetIndicators.executeWith wA false).lowestPrice = some lp → 0 ≤ lp) ∧
     (GetIndicators.isMeetBuyTrigger 30 wA = some false →
       (GetIndicators.executeWith wA false).lowestPrice
         = some GetIndicators.minSafeInteger)) ∧
    (0 ≤ (TrailingTrade.executeWith inpN ⟨0, 1, 2, 1, 2⟩ 1).buy.lowestPrice ∧
     0 ≤ (TrailingTrade.executeWith inpN ⟨0, 1, 2, 1, 2⟩ 1).buy.currentPrice) :=
  ⟨c3_nonneg_amended.1 30 wA (GetIndicators.executeWith wA false)
      (by decide) (by decide),
   c3_nonneg_amended.2 inpN (TrailingTrade.executeWith inpN ⟨0, 1, 2, 1, 2⟩ 1)
      (by decide) (by rfl)⟩

/-- C4 counterexample: at currentPrice 100, effective lowest price 90 and buy
trigger percentage 1.01 the computed buy difference equals `9100/909`, which
is strictly positive (≈ +10.01), not ≈ -10.01 as claimed — it is more than 20
away from -10.01. -/
theorem c4_counterexample :
    TrailingTrade.buyDifferenceOf 100 (TrailingTrade.buyTriggerPriceOf 90 (101/100))
      = 9100/909 ∧
    0 < TrailingTrade.buyDifferenceOf 100 (TrailingTrade.buyTriggerPriceOf 90 (101/100)) ∧
    20 < TrailingTrade.buyDifferenceOf 100 (TrailingTrade.buyTriggerPriceOf 90 (101/100))
      - (-1001/100) := by
  refine ⟨?_, by norm_num [TrailingTrade.buyDifferenceOf, TrailingTrade.buyTriggerPriceOf],
    by norm_num [TrailingTrade.buyDifferenceOf, TrailingTrade.buyTriggerPriceOf]⟩
  norm_num [TrailingTrade.buyDifferenceOf, TrailingTrade.buyTriggerPriceOf]

/-- C4 amended: the trigger calculator computes `buyTriggerPrice =
effectiveLowestPrice * buyTriggerPercentage`, `buyDifference = (1 -
currentPrice / buyTriggerPrice) * -100` and `buyLimitPrice = currentPrice *
buyLimitPercentage`, and these are the values written into the buy section by
the trailing step; at currentPrice=100, effectiveLowestPrice=90,
buyTriggerPercentage=1.01 this yields buyTriggerPrice = 90.9 and
buyDifference = 9100/909 ≈ +10.01 (positive, since the current price is above
the trigger). -/
theorem c4_trigger_calculator :
    (∀ (inp : TrailingTrade.Input) (res : TrailingTrade.Result),
      TrailingTrade.execute inp = some res →
      res.buy.triggerPrice = res.buy.lowestPrice * inp.buyTriggerPercentage ∧
      res.buy.difference =
        (1 - res.buy.currentPrice / res.buy.triggerPrice) * (-100) ∧
      res.buy.limitPrice = res.buy.currentPrice * inp.buyLimitPercentage) ∧
    TrailingTrade.buyTriggerPriceOf 90 (101/100) = 909/10 ∧
    TrailingTrade.buyDifferenceOf 100 (909/10) = 9100/909 := by
  refine ⟨?_, by norm_num [TrailingTrade.buyTriggerPriceOf],
    by norm_num [TrailingTrade.buyDifferenceOf]⟩
  intro inp res h
  obtain ⟨lc, lp, hlc, hlp, hres⟩ := TrailingTrade.trailing_execute_eq_some h
  subst hres
  exact ⟨rfl, rfl, rfl⟩

/-- C4 witness: the universally quantified part of the amended statement
applied to the concrete trailing-step input. -/
theorem c4_trigger_calculator_witness :
    TrailingTrade.execute inpN =
      some (TrailingTrade.executeWith inpN ⟨0, 1, 2, 1, 2⟩ 1) ∧
    ((TrailingTrade.executeWith inpN ⟨0, 1, 2, 1, 2⟩ 1).buy.triggerPrice
        = (TrailingTrade.executeWith inpN ⟨0, 1, 2, 1, 2⟩ 1).buy.lowestPrice
          * inpN.buyTriggerPercentage ∧
     (TrailingTrade.executeWith inpN ⟨0, 1, 2, 1, 2⟩ 1).buy.difference
        = (1 - (TrailingTrade.executeWith inpN ⟨0, 1, 2, 1, 2⟩ 1).buy.currentPrice
            / (TrailingTrade.executeWith inpN ⟨0, 1, 2, 1, 2⟩ 1).buy.triggerPrice)
          * (-100) ∧
     (TrailingTrade.executeWith inpN ⟨0, 1, 2, 1, 2⟩ 1).buy.limitPrice
        = (TrailingTrade.executeWith inpN ⟨0, 1, 2, 1, 2⟩ 1).buy.currentPrice
          * inpN.buyLimitPercentage) :=
  ⟨by rfl,
   c4_trigger_calculator.1 inpN (TrailingTrade.executeWith inpN ⟨0, 1, 2, 1, 2⟩ 1)
     (by rfl)⟩

/-- C5: when the persisted last buy price is null or not greater than zero,
the sell trigger price, sell difference, sell current profit and sell current
profit percentage are all exactly null, and every sell-side stop-loss-limit
open order carries explicitly null `minimumProfit` and
`minimumProfitPercentage`; when the last buy price is a positive number `p`,
the sell trigger price is `p * sellTriggerPercentage` and the sell difference
is `(1 - sellTriggerPrice / currentPrice) * 100`. -/
theorem c5_null_propagation (inp : TrailingTrade.Input)
    (res : TrailingTrade.Result) (h : TrailingTrade.execute inp = some res) :
    (jsNumGtZero inp.lastBuyPrice = false →
      res.sell.triggerPrice = none ∧ res.sell.difference = none ∧
      res.sell.currentProfit = none ∧ res.sell.currentProfitPercentage = none ∧
      ∀ o ∈ res.sell.openOrders, o.type = "STOP_LOSS_LIMIT" →
        o.minimumProfit = some none ∧ o.minimumProfitPercentage = some none) ∧
    (∀ p, inp.lastBuyPrice = some p → 0 < p →
      res.sell.triggerPrice = some (p * inp.sellTriggerPercentage) ∧
      res.sell.difference =
        some ((1 - p * inp.sellTriggerPercentage / res.sell.currentPrice) * 100)) := by
  obtain ⟨lc, lp, hlc, hlp, hres⟩ := TrailingTrade.trailing_execute_eq_some h
  subst hres
  constructor
  · intro hfalse
    refine ⟨?_, ?_, ?_, ?_, ?_⟩
    · simp [TrailingTrade.executeWith, TrailingTrade.sellTriggerPriceOf, hfalse]
    · simp [TrailingTrade.executeWith, TrailingTrade.sellDifferenceOf, hfalse]
    · simp [TrailingTrade.executeWith, hfalse]
    · simp [TrailingTrade.executeWith, hfalse]
    · intro o ho htype
      simp only [TrailingTrade.executeWith, List.mem_filter, List.mem_map] at ho
      obtain ⟨⟨raw, hraw, hoeq⟩, hside⟩ := ho
      subst hoeq
      have hsides := TrailingTrade.reconcileOrder_side lc.close
        (TrailingTrade.buyLimitPriceOf lc.close inp.buyLimitPercentage)
        inp.buyLimitPercentage
        (TrailingTrade.sellLimitPriceOf lc.close inp.sellLimitPercentage)
        inp.sellLimitPercentage inp.lastBuyPrice raw
      rw [hsides.1] at hside
      have hsideeq : jsToLower raw.side = "sell" := by simpa using hside
      have htype' : raw.type = "STOP_LOSS_LIMIT" := by
        rw [← hsides.2]; exact htype
      rw [TrailingTrade.reconcileOrder_sell_eq _ _ _ _ _ _ _ htype' hsideeq]
      simp [hfalse]
  · intro p hp hpos
    have htrue : jsNumGtZero (some p) = true := by
      simp [jsNumGtZero, hpos]
    constructor
    · simp [TrailingTrade.executeWith, TrailingTrade.sellTriggerPriceOf,
        htrue, hp]
    · simp [TrailingTrade.executeWith, TrailingTrade.sellDifferenceOf,
        TrailingTrade.sellTriggerPriceOf, htrue, hp]

/-- C5 witness: on the concrete input with no last buy price the trailing step
completes and the statement applies. -/
theorem c5_null_propagation_witness :
    TrailingTrade.execute inpN =
      some (TrailingTrade.executeWith inpN ⟨0, 1, 2, 1, 2⟩ 1) ∧
    ((jsNumGtZero inpN.lastBuyPrice = false →
      (TrailingTrade.executeWith inpN ⟨0, 1, 2, 1, 2⟩ 1).sell.triggerPrice = none ∧
      (TrailingTrade.executeWith inpN ⟨0, 1, 2, 1, 2⟩ 1).sell.difference = none ∧
      (TrailingTrade.executeWith inpN ⟨0, 1, 2, 1, 2⟩ 1).sell.currentProfit = none ∧
      (TrailingTrade.executeWith inpN ⟨0, 1, 2, 1, 2⟩ 1).sell.currentProfitPercentage = none ∧
      ∀ o ∈ (TrailingTrade.executeWith inpN ⟨0, 1, 2, 1, 2⟩ 1).sell.openOrders,
        o.type = "STOP_LOSS_LIMIT" →
        o.minimumProfit = some none ∧ o.minimumProfitPercentage = some none) ∧
    (∀ p, inpN.lastBuyPrice = some p → 0 < p →
      (TrailingTrade.executeWith inpN ⟨0, 1, 2, 1, 2⟩ 1).sell.triggerPrice
        = some (p * inpN.sellTriggerPercentage) ∧
      (TrailingTrade.executeWith inpN ⟨0, 1, 2, 1, 2⟩ 1).sell.difference
        = some ((1 - p * inpN.sellTriggerPercentage
            / (TrailingTrade.executeWith inpN ⟨0, 1, 2, 1, 2⟩ 1).sell.currentPrice)
          * 100))) :=
  ⟨by rfl,
   c5_null_propagation inpN (TrailingTrade.executeWith inpN ⟨0, 1, 2, 1, 2⟩ 1)
     (by rfl)⟩

/-- C6: every sell-side stop-loss-limit open order in the sell section carries
`limitPrice = sellLimitPrice` (currentPrice times the sell limit percentage),
`limitPercentage = sellLimitPercentage`, `difference = (1 - stopPrice /
sellLimitPrice) * 100`, and, when the last buy price is a positive `p`,
`minimumProfit = (orderPrice - p) * orderQuantity` and
`minimumProfitPercentage = (1 - p / orderPrice) * 100`. -/
theorem c6_sell_order_annotations (inp : TrailingTrade.Input)
    (res : TrailingTrade.Result) (h : TrailingTrade.execute inp = some res)
    (o : TrailingTrade.EnrichedOrder) (ho : o ∈ res.sell.openOrders)
    (htype : o.type = "STOP_LOSS_LIMIT") :
    o.limitPrice = some (TrailingTrade.sellLimitPriceOf res.sell.currentPrice
      inp.sellLimitPercentage) ∧
    o.limitPercentage = some inp.sellLimitPercentage ∧
    o.difference = some ((1 - o.stopPrice /
      TrailingTrade.sellLimitPriceOf res.sell.currentPrice
        inp.sellLimitPercentage) * 100) ∧
    o.currentPrice = some res.sell.currentPrice ∧
    (∀ p, inp.lastBuyPrice = some p → 0 < p →
      o.minimumProfit = some (some ((o.price - p) * o.origQty)) ∧
      o.minimumProfitPercentage = some (some ((1 - p / o.price) * 100))) := by
  obtain ⟨lc, lp, hlc, hlp, hres⟩ := TrailingTrade.trailing_execute_eq_some h
  subst hres
  simp only [TrailingTrade.executeWith, List.mem_filter, List.mem_map] at ho
  obtain ⟨⟨raw, hraw, hoeq⟩, hside⟩ := ho
  subst hoeq
  have hsides := TrailingTrade.reconcileOrder_side lc.close
    (TrailingTrade.buyLimitPriceOf lc.close inp.buyLimitPercentage)
    inp.buyLimitPercentage
    (TrailingTrade.sellLimitPriceOf lc.close inp.sellLimitPercentage)
    inp.sellLimitPercentage inp.lastBuyPrice raw
  rw [hsides.1] at hside
  have hsideeq : jsToLower raw.side = "sell" := by simpa using hside
  have htype' : raw.type = "STOP_LOSS_LIMIT" := by
    rw [← hsides.2]; exact htype
  rw [TrailingTrade.reconcileOrder_sell_eq _ _ _ _ _ _ _ htype' hsideeq]
  refine ⟨rfl, rfl, rfl, rfl, ?_⟩
  intro p hp hpos
  have htrue : jsNumGtZero (some p) = true := by
    simp [jsNumGtZero, hpos]
  constructor
  · simp [hp, htrue]
  · simp [hp, htrue]

/-- C10: the buy section's open orders all have side `buy` (compared after
lower-casing) and the sell section's all have side `sell`, so an order of any
other side appears in neither; the reconciler leaves such an order with only
`currentPrice` and `updatedAt` attached — the limit, difference and
minimum-profit fields stay absent even for stop-loss-limit orders. -/
theorem c10_unknown_side_orders (inp : TrailingTrade.Input)
    (res : TrailingTrade.Result) (h : TrailingTrade.execute inp = some res) :
    (∀ o ∈ res.buy.openOrders, jsToLower o.side = "buy") ∧
    (∀ o ∈ res.sell.openOrders, jsToLower o.side = "sell") ∧
    (∃ lc, jsGet inp.candles ((inp.candles.length : Int) - 1) = some lc ∧
      ∀ order ∈ inp.openOrders, jsToLower order.side ≠ "buy" →
        jsToLower order.side ≠ "sell" →
        TrailingTrade.reconcileOrder lc.close
            (TrailingTrade.buyLimitPriceOf lc.close inp.buyLimitPercentage)
            inp.buyLimitPercentage
            (TrailingTrade.sellLimitPriceOf lc.close inp.sellLimitPercentage)
            inp.sellLimitPercentage inp.lastBuyPrice order =
          { side := order.side, type := order.type, time := order.time,
            price := order.price, origQty := order.origQty,
            stopPrice := order.stopPrice,
            currentPrice := some lc.close, updatedAt := some order.time,
            limitPrice := none, limitPercentage := none, difference := none,
            minimumProfit := none, minimumProfitPercentage := none } ∧
        TrailingTrade.reconcileOrder lc.close
            (TrailingTrade.buyLimitPriceOf lc.close inp.buyLimitPercentage)
            inp.buyLimitPercentage
            (TrailingTrade.sellLimitPriceOf lc.close inp.sellLimitPercentage)
            inp.sellLimitPercentage inp.lastBuyPrice order
          ∉ res.buy.openOrders ∧
        TrailingTrade.reconcileOrder lc.close
            (TrailingTrade.buyLimitPriceOf lc.close inp.buyLimitPercentage)
            inp.buyLimitPercentage
            (TrailingTrade.sellLimitPriceOf lc.close inp.sellLimitPercentage)
            inp.sellLimitPercentage inp.lastBuyPrice order
          ∉ res.sell.openOrders) := by
  obtain ⟨lc, lp, hlc, hlp, hres⟩ := TrailingTrade.trailing_execute_eq_some h
  subst hres
  have hbuyside : ∀ o ∈ (TrailingTrade.executeWith inp lc lp).buy.openOrders,
      jsToLower o.side = "buy" := by
    intro o ho
    simp only [TrailingTrade.executeWith, List.mem_filter] at ho
    simpa using ho.2
  have hsellside : ∀ o ∈ (TrailingTrade.executeWith inp lc lp).sell.openOrders,
      jsToLower o.side = "sell" := by
    intro o ho
    simp only [TrailingTrade.executeWith, List.mem_filter] at ho
    simpa using ho.2
  refine ⟨hbuyside, hsellside, lc, hlc, ?_⟩
  intro order horder hnbuy hnsell
  have hrec : TrailingTrade.reconcileOrder lc.close
      (TrailingTrade.buyLimitPriceOf lc.close inp.buyLimitPercentage)
      inp.buyLimitPercentage
      (TrailingTrade.sellLimitPriceOf lc.close inp.sellLimitPercentage)
      inp.sellLimitPercentage inp.lastBuyPrice order =
      { side := order.side, type := order.type, time := order.time,
        price := order.price, origQty := order.origQty,
        stopPrice := order.stopPrice,
        currentPrice := some lc.close, updatedAt := some order.time,
        limitPrice := none, limitPercentage := none, difference := none,
        minimumProfit := none, minimumProfitPercentage := none } := by
    unfold TrailingTrade.reconcileOrder
    split
    · rfl
    · simp only [if_neg hnbuy, if_neg hnsell]
  have hside := TrailingTrade.reconcileOrder_side lc.close
    (TrailingTrade.buyLimitPriceOf lc.close inp.buyLimitPercentage)
    inp.buyLimitPercentage
    (TrailingTrade.sellLimitPriceOf lc.close inp.sellLimitPercentage)
    inp.sellLimitPercentage inp.lastBuyPrice order
  refine ⟨hrec, ?_, ?_⟩
  · intro hmem
    exact hnbuy (by rw [← hside.1]; exact hbuyside _ hmem)
  · intro hmem
    exact hnsell (by rw [← hside.1]; exact hsellside _ hmem)

/-- The enriched sell-side stop-loss-limit order produced by the reconciler on
the concrete input with last buy price 100: order price 110, quantity 2,
stop price 7, current price 2, sell limit price 8. -/
def oP : TrailingTrade.EnrichedOrder :=
  TrailingTrade.reconcileOrder 2 (TrailingTrade.buyLimitPriceOf 2 2) 2
    (TrailingTrade.sellLimitPriceOf 2 4) 4 (some 100)
    ⟨"SELL", "STOP_LOSS_LIMIT", 5, 110, 2, 7⟩

/-- C6 witness: on the concrete input with last buy price 100 the reconciled
sell order is in the sell section, the annotations hold, and in particular
`minimumProfit = (110 - 100) * 2 = 20` and `minimumProfitPercentage =
(1 - 100/110) * 100 = 100/11 ≈ 9.09`. -/
theorem c6_sell_order_annotations_witness :
    TrailingTrade.execute inpP =
      some (TrailingTrade.executeWith inpP ⟨0, 1, 2, 1, 2⟩ 1) ∧
    oP ∈ (TrailingTrade.executeWith inpP ⟨0, 1, 2, 1, 2⟩ 1).sell.openOrders ∧
    oP.type = "STOP_LOSS_LIMIT" ∧
    (oP.limitPrice = some (TrailingTrade.sellLimitPriceOf
        (TrailingTrade.executeWith inpP ⟨0, 1, 2, 1, 2⟩ 1).sell.currentPrice
        inpP.sellLimitPercentage) ∧
     oP.limitPercentage = some inpP.sellLimitPercentage ∧
     oP.difference = some ((1 - oP.stopPrice /
       TrailingTrade.sellLimitPriceOf
         (TrailingTrade.executeWith inpP ⟨0, 1, 2, 1, 2⟩ 1).sell.currentPrice
         inpP.sellLimitPercentage) * 100) ∧
     oP.currentPrice =
       some (TrailingTrade.executeWith inpP ⟨0, 1, 2, 1, 2⟩ 1).sell.currentPrice ∧
     (∀ p, inpP.lastBuyPrice = some p → 0 < p →
       oP.minimumProfit = some (some ((oP.price - p) * oP.origQty)) ∧
       oP.minimumProfitPercentage = some (some ((1 - p / oP.price) * 100)))) ∧
    oP.minimumProfit = some (some 20) ∧
    oP.minimumProfitPercentage = some (some (100/11)) :=
  ⟨by rfl, List.Mem.head _, rfl,
   c6_sell_order_annotations inpP (TrailingTrade.executeWith inpP ⟨0, 1, 2, 1, 2⟩ 1)
     (by rfl) oP (List.Mem.head _) rfl,
   by
     show some (some (((110 : ℚ) - 100) * 2)) = some (some 20)
     norm_num,
   by
     show some (some ((1 - (100 : ℚ) / 110) * 100)) = some (some (100/11))
     norm_num⟩

/-- C10 witness: on the concrete input, which contains an open order with side
"HOLD", the trailing step completes and the side partition and pass-through
statement apply. -/
theorem c10_unknown_side_orders_witness :
    TrailingTrade.execute inpN =
      some (TrailingTrade.executeWith inpN ⟨0, 1, 2, 1, 2⟩ 1) ∧
    ((∀ o ∈ (TrailingTrade.executeWith inpN ⟨0, 1, 2, 1, 2⟩ 1).buy.openOrders,
        jsToLower o.side = "buy") ∧
     (∀ o ∈ (TrailingTrade.executeWith inpN ⟨0, 1, 2, 1, 2⟩ 1).sell.openOrders,
        jsToLower o.side = "sell") ∧
     (∃ lc, jsGet inpN.candles ((inpN.candles.length : Int) - 1) = some lc ∧
       ∀ order ∈ inpN.openOrders, jsToLower order.side ≠ "buy" →
         jsToLower order.side ≠ "sell" →
         TrailingTrade.reconcileOrder lc.close
             (TrailingTrade.buyLimitPriceOf lc.close inpN.buyLimitPercentage)
             inpN.buyLimitPercentage
             (TrailingTrade.sellLimitPriceOf lc.close inpN.sellLimitPercentage)
             inpN.sellLimitPercentage inpN.lastBuyPrice order =
           { side := order.side, type := order.type, time := order.time,
             price := order.price, origQty := order.origQty,
             stopPrice := order.stopPrice,
             currentPrice := some lc.close, updatedAt := some order.time,
             limitPrice := none, limitPercentage := none, difference := none,
             minimumProfit := none, minimumProfitPercentage := none } ∧
         TrailingTrade.reconcileOrder lc.close
             (TrailingTrade.buyLimitPriceOf lc.close inpN.buyLimitPercentage)
             inpN.buyLimitPercentage
             (TrailingTrade.sellLimitPriceOf lc.close inpN.sellLimitPercentage)
             inpN.sellLimitPercentage inpN.lastBuyPrice order
           ∉ (TrailingTrade.executeWith inpN ⟨0, 1, 2, 1, 2⟩ 1).buy.openOrders ∧
         TrailingTrade.reconcileOrder lc.close
             (TrailingTrade.buyLimitPriceOf lc.close inpN.buyLimitPercentage)
             inpN.buyLimitPercentage
             (TrailingTrade.sellLimitPriceOf lc.close inpN.sellLimitPercentage)
             inpN.sellLimitPercentage inpN.lastBuyPrice order
           ∉ (TrailingTrade.executeWith inpN ⟨0, 1, 2, 1, 2⟩ 1).sell.openOrders)) :=
  ⟨by rfl,
   c10_unknown_side_orders inpN (TrailingTrade.executeWith inpN ⟨0, 1, 2, 1, 2⟩ 1)
     (by rfl)⟩

/-- A raw candle whose `high` field is missing or non-numeric. -/
def badCandle : RawCandle := ⟨some 1, some 1, none, some 1, some 1⟩

/-- C8 counterexample: on a window containing a candle with a missing or
non-numeric `high`, `flattenCandlesData` does not fail — it returns series,
and the `high` series contains the NaN produced by the `+` coercion,
contradicting both the claimed `MalformedCandleError` and the claim that the
returned series never contain NaN. -/
theorem c8_counterexample :
    flattenRawCandlesData [badCandle] =
      { openTime := [some 1], high := [none], low := [some 1], close := [some 1] } ∧
    none ∈ (flattenRawCandlesData [badCandle]).high := by
  constructor
  · rfl
  · show none ∈ [(none : Option ℚ)]
    exact List.Mem.head _

/-- C8 amended: the candle normalizer performs no validation and never fails:
it is a pure function that always returns four series of the input's length;
a missing or non-numeric field is coerced to NaN in place, and when every
field of every candle is numeric no NaN appears in any output series. -/
theorem c8_no_validation (candles : List RawCandle)
    (h : ∀ c ∈ candles, c.openTime.isSome ∧ c.openPrice.isSome ∧
      c.high.isSome ∧ c.low.isSome ∧ c.close.isSome) :
    ((flattenRawCandlesData candles).openTime.length = candles.length ∧
     (flattenRawCandlesData candles).high.length = candles.length ∧
     (flattenRawCandlesData candles).low.length = candles.length ∧
     (flattenRawCandlesData candles).close.length = candles.length) ∧
    (none ∉ (flattenRawCandlesData candles).openTime ∧
     none ∉ (flattenRawCandlesData candles).high ∧
     none ∉ (flattenRawCandlesData candles).low ∧
     none ∉ (flattenRawCandlesData candles).close) := by
  refine ⟨⟨?_, ?_, ?_, ?_⟩, ?_, ?_, ?_, ?_⟩
  · simp [flattenRawCandlesData]
  · simp [flattenRawCandlesData]
  · simp [flattenRawCandlesData]
  · simp [flattenRawCandlesData]
  · intro hmem
    simp only [flattenRawCandlesData, List.mem_map] at hmem
    obtain ⟨c, hc, hnone⟩ := hmem
    have := (h c hc).1
    rw [hnone] at this
    exact Bool.noConfusion this
  · intro hmem
    simp only [flattenRawCandlesData, List.mem_map] at hmem
    obtain ⟨c, hc, hnone⟩ := hmem
    have := (h c hc).2.2.1
    rw [hnone] at this
    exact Bool.noConfusion this
  · intro hmem
    simp only [flattenRawCandlesData, List.mem_map] at hmem
    obtain ⟨c, hc, hnone⟩ := hmem
    have := (h c hc).2.2.2.1
    rw [hnone] at this
    exact Bool.noConfusion this
  · intro hmem
    simp only [flattenRawCandlesData, List.mem_map] at hmem
    obtain ⟨c, hc, hnone⟩ := hmem
    have := (h c hc).2.2.2.2
    rw [hnone] at this
    exact Bool.noConfusion this

/-- C8 witness: a one-candle window with all fields numeric has full-length
NaN-free output series. -/
theorem c8_no_validation_witness :
    (∀ c ∈ [(⟨some 1, some 2, some 3, some 4, some 5⟩ : RawCandle)],
      c.openTime.isSome ∧ c.openPrice.isSome ∧
      c.high.isSome ∧ c.low.isSome ∧ c.close.isSome) ∧
    (((flattenRawCandlesData [⟨some 1, some 2, some 3, some 4, some 5⟩]).openTime.length
        = [(⟨some 1, some 2, some 3, some 4, some 5⟩ : RawCandle)].length ∧
      (flattenRawCandlesData [⟨some 1, some 2, some 3, some 4, some 5⟩]).high.length
        = [(⟨some 1, some 2, some 3, some 4, some 5⟩ : RawCandle)].length ∧
      (flattenRawCandlesData [⟨some 1, some 2, some 3, some 4, some 5⟩]).low.length
        = [(⟨some 1, some 2, some 3, some 4, some 5⟩ : RawCandle)].length ∧
      (flattenRawCandlesData [⟨some 1, some 2, some 3, some 4, some 5⟩]).close.length
        = [(⟨some 1, some 2, some 3, some 4, some 5⟩ : RawCandle)].length) ∧
     (none ∉ (flattenRawCandlesData [⟨some 1, some 2, some 3, some 4, some 5⟩]).openTime ∧
      none ∉ (flattenRawCandlesData [⟨some 1, some 2, some 3, some 4, some 5⟩]).high ∧
      none ∉ (flattenRawCandlesData [⟨some 1, some 2, some 3, some 4, some 5⟩]).low ∧
      none ∉ (flattenRawCandlesData [⟨some 1, some 2, some 3, some 4, some 5⟩]).close)) :=
  ⟨by decide, c8_no_validation [⟨some 1, some 2, some 3, some 4, some 5⟩] (by decide)⟩

/-- C9: the `data.buy` object literal written by the trailing step has no key
named `processMessage`: the process-message key is misspelled `processMesage`
(the `data.sell` literal does spell it `processMessage`), so the buy section
does not contain the claimed `processMessage` field and the dashboard, which
reads `buy.processMessage`, never finds it. -/
theorem c9_buy_processMessage_key :
    "processMesage" ∈ TrailingTrade.buyFieldNames ∧
    "processMessage" ∉ TrailingTrade.buyFieldNames ∧
    "processMessage" ∈ TrailingTrade.sellFieldNames := by
  decide
